import Mathlib

/-!
# Verification of the snake game state engine (`the_snake.py`)

Shallow embedding of the game-state update logic of `src/the_snake.py`:
the grid constants, the `Apple.randomize_position` food placement, the
`Snake` state machine (`update_direction`, `move`, `check_self_collision`,
`grow`, `reset`), the `handle_keys` direction filter, and the per-tick
sequence of `main`'s loop body.

Python integers are modelled as `Int` (Python `%` with a positive modulus
agrees with `Int.emod`).  The random draws (`choice`, `randint`) are
modelled as explicit parameters: a pick function `List Pos → Pos` for each
`choice` call site and an `Int` pair for each `randint` pair; validity of a
draw (the pick returns a member of a nonempty list, `randint` bounds) is
stated as a hypothesis where a theorem needs it.  Python list indexing
`positions[0]` requires a nonempty list; it is embedded as `headD (0, 0)`
and theorems that depend on it carry a nonemptiness hypothesis.
-/

namespace TheSnake

/-- `SCREEN_WIDTH` from the source (640 pixels). -/
def SCREEN_WIDTH : Int := 640

/-- `SCREEN_HEIGHT` from the source (480 pixels). -/
def SCREEN_HEIGHT : Int := 480

/-- `GRID_SIZE` from the source (20 pixels per cell). -/
def GRID_SIZE : Int := 20

/-- `GRID_WIDTH = SCREEN_WIDTH // GRID_SIZE` (= 32 cells). -/
def GRID_WIDTH : Int := SCREEN_WIDTH / GRID_SIZE

/-- `GRID_HEIGHT = SCREEN_HEIGHT // GRID_SIZE` (= 24 cells). -/
def GRID_HEIGHT : Int := SCREEN_HEIGHT / GRID_SIZE

/-- A position: a pixel-coordinate pair, as in the source's tuples. -/
abbrev Pos := Int × Int

/-- `UP = (0, -1)`. -/
def UP : Pos := (0, -1)

/-- `DOWN = (0, 1)`. -/
def DOWN : Pos := (0, 1)

/-- `LEFT = (-1, 0)`. -/
def LEFT : Pos := (-1, 0)

/-- `RIGHT = (1, 0)`. -/
def RIGHT : Pos := (1, 0)

/-- `ALL_POSITIONS`: every grid-aligned cell of the board, outer loop over
`grid_x in range(GRID_WIDTH)`, inner over `grid_y in range(GRID_HEIGHT)`. -/
def ALL_POSITIONS : List Pos :=
  (List.range GRID_WIDTH.toNat).flatMap fun grid_x =>
    (List.range GRID_HEIGHT.toNat).map fun grid_y =>
      ((grid_x : Int) * GRID_SIZE, (grid_y : Int) * GRID_SIZE)

/-- `Apple.randomize_position(occupied_positions)`: filter the free cells;
if some are free, `choice(free_positions)` (modelled by the pick function
`pickFree`); otherwise fall back to
`(randint(0, GRID_WIDTH - 1) * GRID_SIZE, randint(0, GRID_HEIGHT - 1) * GRID_SIZE)`
(the two `randint` draws modelled by `ri`, `rj`). -/
def randomize_position (pickFree : List Pos → Pos) (ri rj : Int)
    (occupied_positions : List Pos) : Pos :=
  let free_positions := ALL_POSITIONS.filter fun p =>
    decide (p ∉ occupied_positions)
  if free_positions ≠ [] then pickFree free_positions
  else (ri * GRID_SIZE, rj * GRID_SIZE)

/-- The mutable fields of the Python `Snake` object that the game logic
touches: `positions` (body, head first), `direction`, `next_direction`
(`None` modelled as `none`), `length` (the target length), and `last`
(the tail cell vacated this tick, for erasing). -/
structure Snake where
  positions : List Pos
  direction : Pos
  next_direction : Option Pos
  length : Nat
  last : Option Pos
  deriving DecidableEq

/-- `Snake.get_head_position`: `self.positions[0]` (body nonempty in every
reachable state; `headD` totalizes the embedding). -/
def Snake.get_head_position (s : Snake) : Pos :=
  s.positions.headD (0, 0)

/-- `Snake.update_direction`: if `self.next_direction` is truthy, copy it
into `self.direction`.  The source does NOT clear `next_direction`
(its docstring says it does; see `C3`). -/
def Snake.update_direction (s : Snake) : Snake :=
  match s.next_direction with
  | some d => { s with direction := d }
  | none => s

/-- The `new_head` computed inside `Snake.move`:
`((head_x + dx * GRID_SIZE) % SCREEN_WIDTH, (head_y + dy * GRID_SIZE) % SCREEN_HEIGHT)`. -/
def Snake.new_head (s : Snake) : Pos :=
  ((s.get_head_position.1 + s.direction.1 * GRID_SIZE) % SCREEN_WIDTH,
   (s.get_head_position.2 + s.direction.2 * GRID_SIZE) % SCREEN_HEIGHT)

/-- `Snake.move`: compute the new head with toroidal wraparound, insert it
at the front, pop the tail into `last` when the body exceeds `length`
(`self.positions.insert(0, new_head)`; `self.last = self.positions.pop()`).
Returns `new_head` together with the updated snake. -/
def Snake.move (s : Snake) : Pos × Snake :=
  let new_head := s.new_head
  let inserted := new_head :: s.positions
  if inserted.length > s.length then
    (new_head, { s with positions := inserted.dropLast,
                        last := inserted.getLast? })
  else
    (new_head, { s with positions := inserted, last := none })

/-- `Snake.check_self_collision`: `self.get_head_position() in self.positions[1:]`. -/
def Snake.check_self_collision (s : Snake) : Bool :=
  decide (s.get_head_position ∈ s.positions.tail)

/-- `Snake.grow`: `self.length += 1`. -/
def Snake.grow (s : Snake) : Snake :=
  { s with length := s.length + 1 }

/-- `Snake.direction_list` as set in `__init__`. -/
def direction_list : List Pos := [RIGHT, LEFT, UP, DOWN]

/-- `Snake.reset`: one-cell body at the screen center, `length = 1`,
direction re-drawn by `choice(self.direction_list)` (modelled by
`pickDir`), `next_direction` and `last` cleared. -/
def Snake.reset (pickDir : List Pos → Pos) (s : Snake) : Snake :=
  { s with length := 1,
           positions := [(SCREEN_WIDTH / 2, SCREEN_HEIGHT / 2)],
           direction := pickDir direction_list,
           next_direction := none,
           last := none }

/-- The four arrow-key signals `handle_keys` reacts to. -/
inductive Key
  | up
  | down
  | left
  | right
  deriving DecidableEq

/-- One `KEYDOWN` branch of `handle_keys`: set `next_direction` to the
requested direction unless the current direction is its exact opposite. -/
def handle_key (k : Key) (s : Snake) : Snake :=
  match k with
  | .up => if s.direction ≠ DOWN then { s with next_direction := some UP } else s
  | .down => if s.direction ≠ UP then { s with next_direction := some DOWN } else s
  | .left => if s.direction ≠ RIGHT then { s with next_direction := some LEFT } else s
  | .right => if s.direction ≠ LEFT then { s with next_direction := some RIGHT } else s

/-- The state the loop body of `main` updates: the snake and the apple's
position. -/
structure GameState where
  snake : Snake
  apple : Pos
  deriving DecidableEq

/-- One iteration of `main`'s `while True` loop, input polling and drawing
aside: `update_direction`; `move`; on `check_self_collision` reset the
snake and relocate the apple against the reset body; then (unconditionally,
even on a reset tick) compare `new_head` with the apple's current position
and, on equality, `grow` and relocate the apple again.  `pd` models the
`choice` in `reset`, `pf1`/`ri1`/`rj1` the draws of the collision-branch
`randomize_position`, `pf2`/`ri2`/`rj2` those of the food-consumption
branch. -/
def tick (pd pf1 pf2 : List Pos → Pos) (ri1 rj1 ri2 rj2 : Int)
    (g : GameState) : GameState :=
  let s1 := g.snake.update_direction
  let ms := s1.move
  let new_head := ms.1
  let sa :=
    if ms.2.check_self_collision then
      let sr := ms.2.reset pd
      (sr, randomize_position pf1 ri1 rj1 sr.positions)
    else (ms.2, g.apple)
  if new_head = sa.2 then
    let s4 := sa.1.grow
    { snake := s4, apple := randomize_position pf2 ri2 rj2 s4.positions }
  else
    { snake := sa.1, apple := sa.2 }

/-- A pick function validly models `random.choice`: on a nonempty list it
returns one of its members. -/
def ValidPick (pick : List Pos → Pos) : Prop :=
  ∀ l : List Pos, l ≠ [] → pick l ∈ l

/-- The direction a key requests (`K_UP ↦ UP`, ...). -/
def Key.requested : Key → Pos
  | .up => UP
  | .down => DOWN
  | .left => LEFT
  | .right => RIGHT

/-- The exact opposite of a direction vector. -/
def opposite (p : Pos) : Pos := (-p.1, -p.2)

/-- The no-reversal state invariant: whenever a next direction is pending,
it is one of the four directions and the current direction is not its
exact opposite. -/
def DirInv (s : Snake) : Prop :=
  ∀ d, s.next_direction = some d → d ∈ direction_list ∧ s.direction ≠ opposite d

/-- The body-length invariant of the spec: the body is nonempty, at most
`length` cells, and `length ≥ 1`. -/
def Inv (s : Snake) : Prop :=
  1 ≤ s.positions.length ∧ s.positions.length ≤ s.length ∧ 1 ≤ s.length

/-- The snake state after `Snake.__init__`: `reset()` followed by
`self.direction = RIGHT` (the fields of the argument are all overwritten). -/
def Snake.initial (pickDir : List Pos → Pos) : Snake :=
  { Snake.reset pickDir ⟨[], RIGHT, none, 0, none⟩ with direction := RIGHT }

/-- A valid pick that returns the first element. -/
def pickHead : List Pos → Pos := fun l => l.headD (0, 0)

/-- A valid pick that returns `q` whenever `q` is in the list. -/
def pickAt (q : Pos) : List Pos → Pos :=
  fun l => if q ∈ l then q else l.headD (0, 0)

/-- The snake as it stands at game start: one cell at the screen center,
heading `RIGHT`, target length 1. -/
def snake0 : Snake :=
  { positions := [(320, 240)], direction := RIGHT,
    next_direction := none, length := 1, last := none }

/-- A pre-tick game state on which a self-collision fires: a length-3 body
about to move `LEFT` into its own second segment. -/
def gC1 : GameState :=
  { snake := { positions := [(100, 100), (80, 100), (60, 100)], direction := LEFT,
               next_direction := none, length := 3, last := none },
    apple := (0, 0) }

/-- A snake whose next head position equals `positions[2]`, which is also
its tail: length-3 body heading `LEFT`, next head `(80, 100) = positions[2]`. -/
def sTail : Snake :=
  { positions := [(100, 100), (40, 100), (80, 100)], direction := LEFT,
    next_direction := none, length := 3, last := none }

/-- A length-4 snake whose next head position equals `positions[2]`:
heading `LEFT`, next head `(80, 100) = positions[2]`, tail `(60, 100)`. -/
def sQuad : Snake :=
  { positions := [(100, 100), (40, 100), (80, 100), (60, 100)], direction := LEFT,
    next_direction := none, length := 4, last := none }

section Lemmas

/-- `pickHead` is a valid model of `random.choice`. -/
lemma validPick_pickHead : ValidPick pickHead := by
  intro l hl
  cases l with
  | nil => exact absurd rfl hl
  | cons a l => simp [pickHead]

/-- `pickAt q` is a valid model of `random.choice`. -/
lemma validPick_pickAt (q : Pos) : ValidPick (pickAt q) := by
  intro l hl
  unfold pickAt
  split
  · assumption
  · cases l with
    | nil => exact absurd rfl hl
    | cons a l => simp

/-- The first component of `move` is the computed new head. -/
lemma Snake.move_fst (s : Snake) : s.move.1 = s.new_head := by
  simp only [Snake.move]
  split <;> rfl

/-- The state component of `move`, with the branch made explicit. -/
lemma Snake.move_snd (s : Snake) :
    s.move.2 =
      if s.positions.length + 1 > s.length then
        { s with positions := (s.new_head :: s.positions).dropLast,
                 last := (s.new_head :: s.positions).getLast? }
      else
        { s with positions := s.new_head :: s.positions, last := none } := by
  simp only [Snake.move, List.length_cons]
  split <;> rfl

/-- `opposite` is an involution. -/
lemma opposite_opposite (p : Pos) : opposite (opposite p) = p := by
  simp [opposite]

/-- The four `KEYDOWN` branches share one shape: record the requested
direction unless the current direction is its exact opposite. -/
lemma handle_key_eq (k : Key) (s : Snake) :
    handle_key k s =
      if s.direction ≠ opposite k.requested
      then { s with next_direction := some k.requested } else s := by
  cases k <;>
    simp only [handle_key, Key.requested, opposite, UP, DOWN, LEFT, RIGHT,
      neg_neg, neg_zero]

/-- Membership in `ALL_POSITIONS` from grid coordinates. -/
lemma mem_ALL_POSITIONS_of (i j : Nat) (hi : i < 32) (hj : j < 24) :
    ((i : Int) * 20, (j : Int) * 20) ∈ ALL_POSITIONS := by
  have h32 : GRID_WIDTH.toNat = 32 := by decide
  have h24 : GRID_HEIGHT.toNat = 24 := by decide
  unfold ALL_POSITIONS
  rw [h32, h24]
  apply List.mem_flatMap.mpr
  refine ⟨i, List.mem_range.mpr hi, ?_⟩
  have hmem := List.mem_map_of_mem
    (fun grid_y : Nat => ((i : Int) * GRID_SIZE, (grid_y : Int) * GRID_SIZE))
    (List.mem_range.mpr hj)
  norm_num [GRID_SIZE] at hmem ⊢
  exact hmem

end Lemmas

/-- C3 (code bug evidence): at a state whose pending direction is `UP`,
`update_direction` copies `UP` into `direction` but leaves
`next_direction = some UP`: the source never clears it, although its own
docstring (and the spec) say the pending direction is consumed and
cleared. -/
theorem C3_update_direction_keeps_pending :
    ({ snake0 with next_direction := some UP } : Snake).update_direction.direction = UP ∧
    ({ snake0 with next_direction := some UP } : Snake).update_direction.next_direction
      = some UP := by
  exact ⟨rfl, rfl⟩

/-- C7: `grow` only increments the target length and changes no other
field; starting from target length 1 and the one-cell body at the center,
two `grow`s followed by three collision-free moves yield body lengths
2, 3, 3. -/
theorem C7_lazy_growth :
    (∀ s : Snake, s.grow.length = s.length + 1 ∧ s.grow.positions = s.positions ∧
      s.grow.direction = s.direction ∧ s.grow.next_direction = s.next_direction ∧
      s.grow.last = s.last) ∧
    snake0.grow.grow.length = 3 ∧
    snake0.grow.grow.move.2.positions.length = 2 ∧
    snake0.grow.grow.move.2.check_self_collision = false ∧
    snake0.grow.grow.move.2.move.2.positions.length = 3 ∧
    snake0.grow.grow.move.2.move.2.check_self_collision = false ∧
    snake0.grow.grow.move.2.move.2.move.2.positions.length = 3 ∧
    snake0.grow.grow.move.2.move.2.move.2.check_self_collision = false := by
  refine ⟨fun s => ⟨rfl, rfl, rfl, rfl, rfl⟩, ?_, ?_, ?_, ?_, ?_, ?_, ?_⟩ <;> decide

/-- C9: the target length is unchanged by `move`, `update_direction` and
`handle_key`, incremented by exactly 1 by `grow`, and set to 1 by `reset`. -/
theorem C9_target_length_monotonic (s : Snake) (k : Key) (pd : List Pos → Pos) :
    s.move.2.length = s.length ∧
    s.update_direction.length = s.length ∧
    (handle_key k s).length = s.length ∧
    s.grow.length = s.length + 1 ∧
    (s.reset pd).length = 1 := by
  refine ⟨?_, ?_, ?_, rfl, rfl⟩
  · rw [Snake.move_snd]
    split <;> rfl
  · unfold Snake.update_direction
    cases s.next_direction <;> rfl
  · cases k <;> simp only [handle_key] <;> split <;> rfl

/-- C10: `move` mutates only `positions` and `last`: direction, target
length and pending direction are unchanged, and the returned value is the
new head stored at the front of the body. -/
theorem C10_move_frame (s : Snake) :
    s.move.2.direction = s.direction ∧
    s.move.2.length = s.length ∧
    s.move.2.next_direction = s.next_direction ∧
    (s.positions ≠ [] → s.move.2.positions.head? = some s.move.1) := by
  rw [Snake.move_fst, Snake.move_snd]
  refine ⟨?_, ?_, ?_, fun hne => ?_⟩
  · split <;> rfl
  · split <;> rfl
  · split <;> rfl
  · obtain ⟨p, l, hps⟩ := List.exists_cons_of_ne_nil hne
    rw [hps]
    split <;> rfl

/-- Witness for `C10_move_frame` at the starting snake. -/
theorem C10_move_frame_witness :
    snake0.positions ≠ [] ∧ snake0.move.2.positions.head? = some snake0.move.1 :=
  ⟨by decide, (C10_move_frame snake0).2.2.2 (by decide)⟩

/-- C8: the invariant `1 ≤ len(body) ≤ targetLength` (with
`targetLength ≥ 1`) is preserved by `move`, `grow` and `reset`. -/
theorem C8_body_length_invariant (s : Snake) (pd : List Pos → Pos) (h : Inv s) :
    Inv s.move.2 ∧ Inv s.grow ∧ Inv (s.reset pd) := by
  obtain ⟨h1, h2, h3⟩ := h
  refine ⟨?_, ⟨h1, ?_, ?_⟩, ⟨Nat.le_refl 1, Nat.le_refl 1, Nat.le_refl 1⟩⟩
  · rw [Snake.move_snd]
    split <;> refine ⟨?_, ?_, h3⟩ <;>
      simp only [List.length_dropLast, List.length_cons] <;> omega
  · show s.positions.length ≤ s.length + 1
    omega
  · show 1 ≤ s.length + 1
    omega

/-- Witness for `C8_body_length_invariant` at the starting snake. -/
theorem C8_body_length_invariant_witness :
    Inv snake0 ∧ (Inv snake0.move.2 ∧ Inv snake0.grow ∧ Inv (snake0.reset pickHead)) :=
  ⟨⟨Nat.le_refl 1, Nat.le_refl 1, Nat.le_refl 1⟩,
   C8_body_length_invariant snake0 pickHead ⟨Nat.le_refl 1, Nat.le_refl 1, Nat.le_refl 1⟩⟩

/-- C5: from any in-bounds grid-aligned head cell and any of the four unit
directions, the new head computed by `move` equals the grid-unit
wraparound `((x + dx) mod width, (y + dy) mod height)` scaled back to
pixels, stays inside `[0, 640) × [0, 480)`, and remains a multiple of the
20-pixel grid step. -/
theorem C5_wraparound (gx gy : Int) (d : Pos) (s : Snake)
    (_hgx0 : 0 ≤ gx) (_hgx : gx < GRID_WIDTH) (_hgy0 : 0 ≤ gy) (_hgy : gy < GRID_HEIGHT)
    (hd : d ∈ direction_list)
    (hhead : s.get_head_position = (gx * GRID_SIZE, gy * GRID_SIZE))
    (hdir : s.direction = d) :
    s.move.1 = ((gx + d.1) % GRID_WIDTH * GRID_SIZE,
                (gy + d.2) % GRID_HEIGHT * GRID_SIZE) ∧
    0 ≤ s.move.1.1 ∧ s.move.1.1 < SCREEN_WIDTH ∧
    0 ≤ s.move.1.2 ∧ s.move.1.2 < SCREEN_HEIGHT ∧
    s.move.1.1 % GRID_SIZE = 0 ∧ s.move.1.2 % GRID_SIZE = 0 := by
  have hnh : s.new_head = ((gx * GRID_SIZE + d.1 * GRID_SIZE) % SCREEN_WIDTH,
                           (gy * GRID_SIZE + d.2 * GRID_SIZE) % SCREEN_HEIGHT) := by
    rw [Snake.new_head, hhead, hdir]
  rw [Snake.move_fst, hnh]
  simp only [direction_list, List.mem_cons, List.not_mem_nil, or_false] at hd
  rcases hd with rfl | rfl | rfl | rfl <;>
    simp only [Prod.ext_iff, RIGHT, LEFT, UP, DOWN, GRID_SIZE, SCREEN_WIDTH,
      SCREEN_HEIGHT, GRID_WIDTH, GRID_HEIGHT] <;>
    omega

/-- Witness for `C5_wraparound` at the starting snake: head `(320, 240)`
(grid cell `(16, 12)`), heading `RIGHT`. -/
theorem C5_wraparound_witness :
    snake0.move.1 = ((16 + RIGHT.1) % GRID_WIDTH * GRID_SIZE,
                     (12 + RIGHT.2) % GRID_HEIGHT * GRID_SIZE) ∧
    0 ≤ snake0.move.1.1 ∧ snake0.move.1.1 < SCREEN_WIDTH ∧
    0 ≤ snake0.move.1.2 ∧ snake0.move.1.2 < SCREEN_HEIGHT ∧
    snake0.move.1.1 % GRID_SIZE = 0 ∧ snake0.move.1.2 % GRID_SIZE = 0 :=
  C5_wraparound 16 12 RIGHT snake0 (by decide) (by decide) (by decide) (by decide)
    (by decide) (by decide) (by decide)

/-- C2 counterexample: `sTail` has a length-3 body whose next head equals
`positions[2]` — which is also the current tail, so the new head occurs in
`body[1:]` of the pre-move body — yet `move` pops that tail before the
collision check, no reset fires, and the post-advance body still has
length 3. -/
theorem C2_tail_cell_cex :
    sTail.positions.length = 3 ∧
    sTail.positions.getD 2 (0, 0) = sTail.move.1 ∧
    sTail.move.1 ∈ sTail.positions.tail ∧
    sTail.move.2.check_self_collision = false ∧
    sTail.move.2.positions.length = 3 := by
  decide

/-- C2 amended: a self-collision is detected exactly when the new head
occurs in the post-move `body[1:]` — the pre-move body with its tail
removed when the tail is popped (`len(body) + 1 > targetLength`), the full
pre-move body otherwise — so moving into the current tail's cell counts
only when growth is pending; and for every body of length at least 4
whose next head equals `positions[2]`, the collision is detected and the
subsequent reset leaves a one-cell body at the board center. -/
theorem C2_self_collision_reset (s : Snake) (pd : List Pos → Pos) :
    (s.move.2.check_self_collision = true ↔
      s.new_head ∈ (if s.positions.length + 1 > s.length then s.positions.dropLast
                    else s.positions)) ∧
    (∀ b0 b1 b2 b3 rest, s.positions = b0 :: b1 :: b2 :: b3 :: rest →
      s.new_head = b2 →
      s.move.2.check_self_collision = true ∧
      (s.move.2.reset pd).positions = [(SCREEN_WIDTH / 2, SCREEN_HEIGHT / 2)] ∧
      (s.move.2.reset pd).length = 1) := by
  have hA : s.move.2.check_self_collision = true ↔
      s.new_head ∈ (if s.positions.length + 1 > s.length then s.positions.dropLast
                    else s.positions) := by
    rw [Snake.move_snd]
    split
    · cases hp : s.positions with
      | nil => simp [Snake.check_self_collision, Snake.get_head_position]
      | cons p l =>
        simp [Snake.check_self_collision, Snake.get_head_position, List.dropLast_cons₂]
    · simp [Snake.check_self_collision, Snake.get_head_position]
  refine ⟨hA, fun b0 b1 b2 b3 rest hps hnh => ?_⟩
  have hcol : s.move.2.check_self_collision = true := by
    rw [hA, hps, hnh]
    split
    · simp [List.dropLast_cons₂]
    · simp
  exact ⟨hcol, rfl, rfl⟩

/-- Witness for `C2_self_collision_reset` at the length-4 snake `sQuad`. -/
theorem C2_self_collision_reset_witness :
    sQuad.move.2.check_self_collision = true ∧
    (sQuad.move.2.reset pickHead).positions = [(SCREEN_WIDTH / 2, SCREEN_HEIGHT / 2)] ∧
    (sQuad.move.2.reset pickHead).length = 1 :=
  (C2_self_collision_reset sQuad pickHead).2 (100, 100) (40, 100) (80, 100) (60, 100) []
    (by decide) (by decide)

/-- C4: an opposite-direction request leaves the snake (and in particular
its pending direction) unchanged; a same- or perpendicular-direction
request records the requested direction as pending; the no-reversal
invariant `DirInv` — a pending direction is one of the four directions and
never the exact opposite of the current one — is established by
`handle_key`, preserved by every operation and by the initial state, and
therefore holds when the pending direction is consumed by
`update_direction`. -/
theorem C4_no_reversal (s : Snake) (k : Key) (pd : List Pos → Pos) :
    (k.requested = opposite s.direction → handle_key k s = s) ∧
    (k.requested ≠ opposite s.direction →
      (handle_key k s).next_direction = some k.requested) ∧
    (DirInv s → DirInv (handle_key k s)) ∧
    (DirInv s → DirInv s.update_direction) ∧
    (DirInv s → DirInv s.move.2) ∧
    (DirInv s → DirInv s.grow) ∧
    DirInv (s.reset pd) ∧
    DirInv (Snake.initial pd) ∧
    (∀ d, DirInv s → s.next_direction = some d →
      s.update_direction.direction = d ∧ s.direction ≠ opposite d) := by
  refine ⟨?_, ?_, ?_, ?_, ?_, ?_, ?_, ?_, ?_⟩
  · intro h
    have hd : s.direction = opposite k.requested := by rw [h, opposite_opposite]
    rw [handle_key_eq, if_neg (by simp [hd])]
  · intro h
    have hd : s.direction ≠ opposite k.requested := fun he => h (by rw [he, opposite_opposite])
    rw [handle_key_eq, if_pos hd]
  · intro hInv
    rw [handle_key_eq]
    split
    · rename_i hcond
      intro d hd
      have hd' : k.requested = d := by simpa using hd
      subst hd'
      exact ⟨by cases k <;> decide, hcond⟩
    · exact hInv
  · intro hInv d hd
    have hnext : s.update_direction.next_direction = s.next_direction := by
      unfold Snake.update_direction
      cases hn : s.next_direction <;> simp [hn]
    rw [hnext] at hd
    have hdir : s.update_direction.direction = d := by
      unfold Snake.update_direction
      rw [hd]
    obtain ⟨hmem, _⟩ := hInv d hd
    refine ⟨hmem, ?_⟩
    rw [hdir]
    have hcases : d = RIGHT ∨ d = LEFT ∨ d = UP ∨ d = DOWN := by
      simpa [direction_list] using hmem
    rcases hcases with rfl | rfl | rfl | rfl <;> decide
  · intro hInv
    have h1 : s.move.2.next_direction = s.next_direction ∧ s.move.2.direction = s.direction := by
      rw [Snake.move_snd]
      split <;> exact ⟨rfl, rfl⟩
    intro d hd
    rw [h1.1] at hd
    rw [h1.2]
    exact hInv d hd
  · intro hInv d hd
    exact hInv d hd
  · intro d hd
    simp [Snake.reset] at hd
  · intro d hd
    simp [Snake.initial, Snake.reset] at hd
  · intro d hInv hd
    exact ⟨by simp [Snake.update_direction, hd], (hInv d hd).2⟩

/-- Witness for `C4_no_reversal`: while heading `RIGHT`, a `LEFT` request
is dropped and an `UP` request is recorded. -/
theorem C4_no_reversal_witness :
    handle_key Key.left snake0 = snake0 ∧
    (handle_key Key.up snake0).next_direction = some Key.up.requested :=
  ⟨(C4_no_reversal snake0 Key.left pickHead).1 (by decide),
   (C4_no_reversal snake0 Key.up pickHead).2.1 (by decide)⟩

/-- C6: when the occupied list is a proper subset of the board's cells,
`randomize_position` picks a free cell, so the result is never occupied;
when the occupied list covers the whole board, it falls back to the
unconstrained `randint`-based cell, which is in bounds whenever the draws
respect the `randint(0, GRID_WIDTH - 1)` / `randint(0, GRID_HEIGHT - 1)`
ranges (and may coincide with an occupied cell). -/
theorem C6_food_not_on_snake (pickFree : List Pos → Pos) (ri rj : Int)
    (occupied : List Pos) (hpick : ValidPick pickFree) :
    ((∀ p ∈ occupied, p ∈ ALL_POSITIONS) → (∃ q ∈ ALL_POSITIONS, q ∉ occupied) →
      randomize_position pickFree ri rj occupied ∉ occupied) ∧
    ((∀ q ∈ ALL_POSITIONS, q ∈ occupied) →
      randomize_position pickFree ri rj occupied = (ri * GRID_SIZE, rj * GRID_SIZE) ∧
      (0 ≤ ri → ri ≤ GRID_WIDTH - 1 → 0 ≤ rj → rj ≤ GRID_HEIGHT - 1 →
        randomize_position pickFree ri rj occupied ∈ ALL_POSITIONS)) := by
  constructor
  · rintro _ ⟨q, hqA, hqO⟩
    have hqF : q ∈ ALL_POSITIONS.filter fun p => decide (p ∉ occupied) :=
      List.mem_filter.mpr ⟨hqA, by simpa using hqO⟩
    have hne : ALL_POSITIONS.filter (fun p => decide (p ∉ occupied)) ≠ [] :=
      List.ne_nil_of_mem hqF
    have hres : randomize_position pickFree ri rj occupied =
        pickFree (ALL_POSITIONS.filter fun p => decide (p ∉ occupied)) := by
      unfold randomize_position
      rw [if_pos hne]
    rw [hres]
    have hmem := hpick _ hne
    have hm := List.mem_filter.mp hmem
    simpa using hm.2
  · intro hall
    have hnil : ALL_POSITIONS.filter (fun p => decide (p ∉ occupied)) = [] := by
      rw [List.filter_eq_nil_iff]
      intro a ha
      simpa using hall a ha
    have hres : randomize_position pickFree ri rj occupied
        = (ri * GRID_SIZE, rj * GRID_SIZE) := by
      unfold randomize_position
      rw [if_neg (not_ne_iff.mpr hnil)]
    refine ⟨hres, fun h1 h2 h3 h4 => ?_⟩
    rw [hres]
    have hW : GRID_WIDTH = 32 := by decide
    have hH : GRID_HEIGHT = 24 := by decide
    rw [hW] at h2
    rw [hH] at h4
    have e1 : ri = (ri.toNat : Int) := (Int.toNat_of_nonneg h1).symm
    have e2 : rj = (rj.toNat : Int) := (Int.toNat_of_nonneg h3).symm
    have hGS : GRID_SIZE = (20 : Int) := rfl
    rw [hGS, e1, e2]
    exact mem_ALL_POSITIONS_of ri.toNat rj.toNat (by omega) (by omega)

/-- Witness for `C6_food_not_on_snake`: with only the center cell occupied,
the placed food avoids it; with the whole board occupied, the fallback
cell is returned. -/
theorem C6_food_not_on_snake_witness :
    randomize_position pickHead 0 0 [((320 : Int), (240 : Int))]
      ∉ [((320 : Int), (240 : Int))] ∧
    randomize_position pickHead 0 0 ALL_POSITIONS = (0 * GRID_SIZE, 0 * GRID_SIZE) :=
  ⟨(C6_food_not_on_snake pickHead 0 0 [((320 : Int), (240 : Int))] validPick_pickHead).1
      (by decide) ⟨((0 : Int), (0 : Int)), by decide, by decide⟩,
   ((C6_food_not_on_snake pickHead 0 0 ALL_POSITIONS validPick_pickHead).2
      (fun q h => h)).1⟩

/-- C1 counterexample: on the pre-tick state `gC1` the tick detects a
self-collision and resets, the relocated apple draw lands (validly: every
draw shown is a member of the list it was drawn from) on the pre-reset
`new_head`, the skipped-in-the-spec food check still runs, `grow` fires,
and the target length ends the reset tick at 2, not 1. -/
theorem C1_reset_tick_grow_cex :
    gC1.snake.update_direction.move.2.check_self_collision = true ∧
    pickHead direction_list ∈ direction_list ∧
    pickAt (80, 100) (ALL_POSITIONS.filter fun p =>
        decide (p ∉ [((320 : Int), (240 : Int))]))
      ∈ (ALL_POSITIONS.filter fun p => decide (p ∉ [((320 : Int), (240 : Int))])) ∧
    pickHead (ALL_POSITIONS.filter fun p => decide (p ∉ [((320 : Int), (240 : Int))]))
      ∈ (ALL_POSITIONS.filter fun p => decide (p ∉ [((320 : Int), (240 : Int))])) ∧
    (tick pickHead (pickAt (80, 100)) pickHead 0 0 0 0 gC1).snake.length = 2 := by
  decide

/-- C1 amended: on a reset tick the snake is reset and the food is
relocated against the one-cell reset body, but the food-consumption
comparison is NOT skipped: `new_head` is compared with the relocated food,
`grow` fires exactly when they coincide, so the target length at the end
of a reset tick is 2 when the relocated food equals the pre-reset
`new_head` and 1 otherwise (and in the latter case the relocated food is
the tick's final apple position). -/
theorem C1_reset_tick_food_check (pd pf1 pf2 : List Pos → Pos) (ri1 rj1 ri2 rj2 : Int)
    (g : GameState)
    (hcol : g.snake.update_direction.move.2.check_self_collision = true) :
    (tick pd pf1 pf2 ri1 rj1 ri2 rj2 g).snake.positions
        = [(SCREEN_WIDTH / 2, SCREEN_HEIGHT / 2)] ∧
    (tick pd pf1 pf2 ri1 rj1 ri2 rj2 g).snake.length =
      (if g.snake.update_direction.move.1
          = randomize_position pf1 ri1 rj1 [(SCREEN_WIDTH / 2, SCREEN_HEIGHT / 2)]
       then 2 else 1) ∧
    (g.snake.update_direction.move.1
        ≠ randomize_position pf1 ri1 rj1 [(SCREEN_WIDTH / 2, SCREEN_HEIGHT / 2)] →
      (tick pd pf1 pf2 ri1 rj1 ri2 rj2 g).apple
        = randomize_position pf1 ri1 rj1 [(SCREEN_WIDTH / 2, SCREEN_HEIGHT / 2)]) := by
  have hrp : ∀ t : Snake, (t.reset pd).positions = [(SCREEN_WIDTH / 2, SCREEN_HEIGHT / 2)] :=
    fun t => rfl
  simp only [tick, hcol, if_true, hrp]
  split
  · rename_i hEq
    refine ⟨rfl, rfl, ?_⟩
    intro hne
    exact absurd hEq hne
  · refine ⟨rfl, rfl, ?_⟩
    intro _
    rfl

/-- Witness for `C1_reset_tick_food_check` at the colliding state `gC1`. -/
theorem C1_reset_tick_food_check_witness :
    (tick pickHead (pickAt (80, 100)) pickHead 0 0 0 0 gC1).snake.positions
        = [(SCREEN_WIDTH / 2, SCREEN_HEIGHT / 2)] ∧
    (tick pickHead (pickAt (80, 100)) pickHead 0 0 0 0 gC1).snake.length =
      (if gC1.snake.update_direction.move.1
          = randomize_position (pickAt (80, 100)) 0 0 [(SCREEN_WIDTH / 2, SCREEN_HEIGHT / 2)]
       then 2 else 1) ∧
    (gC1.snake.update_direction.move.1
        ≠ randomize_position (pickAt (80, 100)) 0 0 [(SCREEN_WIDTH / 2, SCREEN_HEIGHT / 2)] →
      (tick pickHead (pickAt (80, 100)) pickHead 0 0 0 0 gC1).apple
        = randomize_position (pickAt (80, 100)) 0 0 [(SCREEN_WIDTH / 2, SCREEN_HEIGHT / 2)]) :=
  C1_reset_tick_food_check pickHead (pickAt (80, 100)) pickHead 0 0 0 0 gC1 (by decide)

end TheSnake
